import Mathlib

/-!
# Verification of `cda2_tool.py` (bulk_extractor cross-drive analysis tool)

A shallow embedding, in Lean 4, of the SQLite-backed cross-drive analysis
tool `src/python/cda2_tool.py`.  The database tables are modelled as Lean
lists whose order is the tables' row (insertion) order, SQLite errors as
`Except String`, and Python floats as exact rationals (every concrete
scenario below only involves dyadic / small-denominator values on which
IEEE doubles and rationals agree).

Table model:
* `drives`               — list of `(driveid, drivename)` rows;
* `features`             — list of `(featureid, feature)` rows;
* `feature_drive_counts` — list of `Row`;
* `feature_frequencies`  — list of `FreqRow` (the `id` primary-key column is
  never read by the tool and is omitted).
-/

/-- Stable insertion of `a` into `l`: `a` is placed before the first element
`b` with `le a b`.  With a total `le` this yields Python's stable sort. -/
def insSorted (le : α → α → Bool) (a : α) : List α → List α
  | [] => [a]
  | b :: l => if le a b then a :: b :: l else b :: insSorted le a l

/-- Stable insertion sort, modelling Python's `sorted` (which is stable):
an element placed before a later element equal to it. -/
def ssort (le : α → α → Bool) : List α → List α
  | [] => []
  | a :: l => insSorted le a (ssort le l)

/-- An exact rational `num / den`: the model of a Python float value.
The tool's floats arise as `1.0/drivecount` and as sums and comparisons
of such values; they are modelled as exact fractions, kept UNNORMALIZED
(the operations below are plain cross-multiplication with no gcd) so that
every operation is structurally computable by the kernel; `Frac.val`
gives the rational value.  All denominators arising in the tool are
positive.  The concrete scenarios proved below involve only values on
which IEEE doubles are themselves exact, so the idealization is faithful
there. -/
structure Frac where
  num : Int
  den : Nat
  deriving Repr, DecidableEq

/-- The rational value of a fraction. -/
def Frac.val (a : Frac) : Rat := (a.num : Rat) / (a.den : Rat)

/-- Exact value comparison `a ≤ b` by cross-multiplication (exact for
positive denominators, see `fle_iff_val`). -/
def fle (a b : Frac) : Bool :=
  decide (a.num * (b.den : Int) ≤ b.num * (a.den : Int))

/-- Exact value comparison `a < b` by cross-multiplication. -/
def flt (a b : Frac) : Bool :=
  decide (a.num * (b.den : Int) < b.num * (a.den : Int))

/-- Exact value equality by cross-multiplication. -/
def feq (a b : Frac) : Bool :=
  decide (a.num * (b.den : Int) = b.num * (a.den : Int))

/-- Exact addition, unnormalized (see `fadd_val`). -/
def fadd (a b : Frac) : Frac :=
  ⟨a.num * (b.den : Int) + b.num * (a.den : Int), a.den * b.den⟩

/-- One row of the `feature_drive_counts` table
(`driveid, feature_type, featureid, count`). -/
structure Row where
  driveid : Nat
  feature_type : Nat
  featureid : Nat
  count : Nat
  deriving Repr, DecidableEq

/-- One row of the `feature_frequencies` table
(`feature_type, featureid, drivecount, featurecount`; the unused `id`
primary key is omitted). -/
structure FreqRow where
  feature_type : Nat
  featureid : Nat
  drivecount : Nat
  featurecount : Nat
  deriving Repr, DecidableEq

/-- The database state: the four tables of the schema, each as a list of
rows in table (insertion) order. -/
structure DB where
  drives : List (Nat × String)
  features : List (Nat × String)
  feature_drive_counts : List Row
  feature_frequencies : List FreqRow
  deriving Repr, DecidableEq

/-- Constant `SEARCH_TYPE = 1` of the source. -/
def SEARCH_TYPE : Nat := 1
/-- Constant `EMAIL_TYPE = 2` of the source. -/
def EMAIL_TYPE : Nat := 2
/-- Constant `WINPE_TYPE = 3` of the source. -/
def WINPE_TYPE : Nat := 3

/-- The command-line tunables read by the analysis functions
(`--drive_threshold`, default 10, and `--correlation_cutoff`, default 0.5). -/
structure Args where
  drive_threshold : Nat
  correlation_cutoff : Frac
  deriving Repr, DecidableEq

/-- The parser defaults of the source (`default=10`, `default=0.5`). -/
def argsDefault : Args := ⟨10, ⟨1, 2⟩⟩

/-- SQLite's rowid assignment for `INSERT ... VALUES (NULL, ...)` into an
`INTEGER PRIMARY KEY` column: one more than the largest existing rowid
(1 on an empty table). -/
def nextRowid (rows : List (Nat × String)) : Nat :=
  (rows.map (fun p => p.1)).foldr max 0 + 1

/-- First row of `rows` whose text column equals `t`, as
`SELECT <id> FROM ... WHERE <text>=?` returns it. -/
def rowLookup (rows : List (Nat × String)) (t : String) : Option Nat :=
  (rows.find? (fun p => p.2 = t)).map (fun p => p.1)

/-- Function `get_featureid` of the source (lines 78–82):
`INSERT OR IGNORE INTO features (featureid,feature) VALUES (NULL,?)` followed
by `SELECT featureid FROM features WHERE feature=?`.  Returns the updated
`features` table and the id. -/
def get_featureid (features : List (Nat × String)) (t : String) :
    List (Nat × String) × Nat :=
  match rowLookup features t with
  | some i => (features, i)
  | none => (features ++ [(nextRowid features, t)], nextRowid features)

/-- Function `get_driveid` of the source (lines 68–71): a plain
`INSERT INTO drives (driveid,drivename) VALUES (NULL,?)` — no `OR IGNORE`
and no lookup — against the schema's `drivename TEXT NOT NULL UNIQUE`
constraint, so the insert raises `sqlite3.IntegrityError` whenever the
name is already present; otherwise it returns `c.lastrowid`. -/
def get_driveid (drives : List (Nat × String)) (name : String) :
    Except String (List (Nat × String) × Nat) :=
  if drives.any (fun p => p.2 = name) then
    .error "IntegrityError: UNIQUE constraint failed: drives.drivename"
  else
    .ok (drives ++ [(nextRowid drives, name)], nextRowid drives)

/-- A bulk_extractor report as the `bulk_extractor_reader.BulkReport`
collaborator exposes it to `ingest`: the image filename, the two
histogram files as `(feature, count)` sequences, and `winpe.txt` as a
`(pos, feature, context)` feature sequence. -/
structure BulkReport where
  image_filename : String
  url_searches : List (String × Nat)
  email_histogram : List (String × Nat)
  winpe : List (Nat × String × String)
  deriving Repr, DecidableEq

/-- Helper for `ingest`'s histogram loops: resolve each feature and append
one `feature_drive_counts` row per entry, skipping entries accepted by
`skip`. -/
def ingestHistogram (driveid ftype : Nat) (skip : String → Bool)
    (entries : List (String × Nat))
    (features : List (Nat × String)) (fdc : List Row) :
    List (Nat × String) × List Row :=
  entries.foldl
    (fun st e =>
      if skip e.1 then st
      else
        let (features', fid) := get_featureid st.1 e.1
        (features', st.2 ++ [⟨driveid, ftype, fid, e.2⟩]))
    (features, fdc)

/-- Model of the `collections.Counter` tally of `ingest`'s winpe loop: an association
list from featureid to running count, keys in first-occurrence order
(Python dict order). -/
def counterAdd (c : List (Nat × Nat)) (k : Nat) : List (Nat × Nat) :=
  match c with
  | [] => [(k, 1)]
  | (k', n) :: rest =>
      if k' = k then (k', n + 1) :: rest else (k', n) :: counterAdd rest k

/-- Function `ingest` of the source (lines 95–132): resolve the drive id (a plain
insert, which fails on a duplicate drive name), delete the (fresh) drive
id's prior `feature_drive_counts` rows, ingest `url_searches.txt`
histogram entries (skipping those starting with `cache:`) as SEARCH rows,
`email_histogram.txt` entries as EMAIL rows, and the `winpe.txt` features
— tallied through a `Counter` first — as WINPE rows, then commit. -/
def ingest (db : DB) (br : BulkReport) : Except String DB := do
  let (drives', driveid) ← get_driveid db.drives br.image_filename
  let fdc0 := db.feature_drive_counts.filter (fun r => ¬ r.driveid = driveid)
  let (feat1, fdc1) :=
    ingestHistogram driveid SEARCH_TYPE (fun s => s.startsWith "cache:")
      br.url_searches db.features fdc0
  let (feat2, fdc2) :=
    ingestHistogram driveid EMAIL_TYPE (fun _ => false)
      br.email_histogram feat1 fdc1
  let (feat3, tally) :=
    br.winpe.foldl
      (fun st e =>
        let (features', fid) := get_featureid st.1 e.2.1
        (features', counterAdd st.2 fid))
      (feat2, ([] : List (Nat × Nat)))
  let fdc3 := fdc2 ++ tally.map (fun p => ⟨driveid, WINPE_TYPE, p.1, p.2⟩)
  return { db with drives := drives', features := feat3,
                   feature_drive_counts := fdc3 }

/-- The key set of `GROUP BY featureid,feature_type` over the
`feature_drive_counts` rows (each occurring `(featureid, feature_type)`
pair exactly once; SQLite's output order of groups is irrelevant to every
property below, since all consumers re-sort, so `List.dedup` order is
used). -/
def groupKeys (rows : List Row) : List (Nat × Nat) :=
  (rows.map (fun r => (r.featureid, r.feature_type))).dedup

/-- The rows of one group: all `feature_drive_counts` rows with the given
`(featureid, feature_type)`. -/
def groupRows (rows : List Row) (k : Nat × Nat) : List Row :=
  rows.filter (fun r => r.featureid = k.1 && r.feature_type = k.2)

/-- Function `build_feature_frequences` of the source (lines 186–192):
`DELETE FROM feature_frequencies` then
`INSERT INTO feature_frequencies (featureid,feature_type,drivecount,featurecount)
SELECT featureid,feature_type,count(*),sum(count) FROM feature_drive_counts
GROUP BY featureid,feature_type`. -/
def build_feature_frequences (db : DB) : DB :=
  { db with feature_frequencies :=
      (groupKeys db.feature_drive_counts).map (fun k =>
        let g := groupRows db.feature_drive_counts k
        ⟨k.2, k.1, g.length, (g.map (fun r => r.count)).sum⟩) }

/-- The joined rows `SELECT R.drivecount,C.featureid,feature FROM
feature_drive_counts as C JOIN features as F ON C.featureid = F.rowid
JOIN feature_frequencies as R ON C.featureid = R.featureid WHERE
C.driveid=? AND C.feature_type=?` (source line 138).  Note that the join
to `feature_frequencies` matches on `featureid` alone — NOT on
`feature_type` — so a feature recorded under several types contributes
one joined row per frequency row, whatever its type. -/
def joinedRows (fdc : List Row) (features : List (Nat × String))
    (ff : List FreqRow) (driveid ftype : Nat) : List (Nat × Nat × String) :=
  (fdc.filter
      (fun r => r.driveid = driveid && r.feature_type = ftype)).flatMap
    (fun r =>
      (features.filter (fun f => f.1 = r.featureid)).flatMap
        (fun f =>
          (ff.filter (fun q => q.featureid = r.featureid)).map
            (fun q => (q.drivecount, r.featureid, f.2))))

/-- Python's ascending comparison of the result triples
`(drivecount, featureid, feature)` (tuple lexicographic order). -/
def leTripleNN (a b : Nat × Nat × String) : Bool :=
  decide (a.1 < b.1) ||
    (decide (a.1 = b.1) &&
      (decide (a.2.1 < b.2.1) ||
        (decide (a.2.1 = b.2.1) && decide (a.2.2 ≤ b.2.2))))

/-- Python's ascending comparison of contribution entries
`[weight, featureid, feature]` (list lexicographic order). -/
def leContrib (a b : Frac × Nat × String) : Bool :=
  flt a.1 b.1 ||
    (feq a.1 b.1 &&
      (decide (a.2.1 < b.2.1) ||
        (decide (a.2.1 = b.2.1) && decide (a.2.2 ≤ b.2.2))))

/-- The accumulating state of `correlate_for_type`'s walk: the `coefs`
and `contribs` Python dicts as association lists in key first-insertion
order (Python dict iteration order). -/
structure CorrState where
  coefs : List (Nat × Frac)
  contribs : List (Nat × List (Frac × Nat × String))
  deriving Repr, DecidableEq

/-- Model of `if driveid_ not in coefs: coefs[driveid_] = 0` followed by
`coefs[driveid_] += w`. -/
def coefAdd (c : List (Nat × Frac)) (d : Nat) (w : Frac) : List (Nat × Frac) :=
  match c with
  | [] => [(d, w)]
  | (d', v) :: rest =>
      if d' = d then (d', fadd v w) :: rest else (d', v) :: coefAdd rest d w

/-- Model of `if driveid_ not in coefs: contribs[driveid_] = []` followed by
`contribs[driveid_].append(e)`. -/
def contribAdd (c : List (Nat × List (Frac × Nat × String))) (d : Nat)
    (e : Frac × Nat × String) : List (Nat × List (Frac × Nat × String)) :=
  match c with
  | [] => [(d, [e])]
  | (d', l) :: rest =>
      if d' = d then (d', l ++ [e]) :: rest else (d', l) :: contribAdd rest d e

/-- The body of the walk for one joined row `(drivecount, featureid,
feature)` (source lines 146–154): the inner query
`SELECT driveid FROM feature_drive_counts WHERE featureid=? AND driveid!=?`
— with NO `feature_type` condition and no `DISTINCT` — yields every row of
any drive other than the target holding the feature under ANY type, and
each such row adds `1.0/drivecount` to that drive's coefficient and
appends a `[1.0/drivecount, featureid, feature]` contribution. -/
def processCand (fdc : List Row) (target : Nat) (s : CorrState)
    (cand : Nat × Nat × String) : CorrState :=
  let others :=
    (fdc.filter
        (fun r => r.featureid = cand.2.1 && ¬ r.driveid = target)).map
      (fun r => r.driveid)
  others.foldl
    (fun s d =>
      ⟨coefAdd s.coefs d ⟨1, cand.1⟩,
       contribAdd s.contribs d (⟨1, cand.1⟩, cand.2.1, cand.2.2)⟩)
    s

/-- The walk itself (source lines 146–156): process each candidate in list
order; AFTER processing a candidate, break out of the loop if its
drivecount exceeds `args.drive_threshold` (`if drivecount >
args.drive_threshold: break` is the last statement of the loop body). -/
def walkCands (fdc : List Row) (target thr : Nat) :
    List (Nat × Nat × String) → CorrState → CorrState
  | [], s => s
  | c :: rest, s =>
      let s' := processCand fdc target s c
      if thr < c.1 then s' else walkCands fdc target thr rest s'

/-- Function `correlate_for_type` of the source (lines 135–162), modelled as the
ranked correlation result it prints: joined rows are sorted ascending
(Python `sorted`, stable) and filtered to `drivecount > 1`
(`filter(lambda r: r[0]>1, sorted(res))`), walked with the post-check
break, and the output is the list of `(other driveid, coefficient,
contributions)` in descending-coefficient order (stable), each drive's
contributions sorted descending (`sorted(..., reverse=True)`).  The
drivename lookup of the printed report (`get_drivename`) is pure
rendering and is omitted from the modelled result. -/
def correlate_core (fdc : List Row) (features : List (Nat × String))
    (ff : List FreqRow) (driveid ftype thr : Nat) :
    List (Nat × Frac × List (Frac × Nat × String)) :=
  let cands := (ssort leTripleNN (joinedRows fdc features ff driveid ftype)).filter
    (fun r => 1 < r.1)
  let st := walkCands fdc driveid thr cands ⟨[], []⟩
  (ssort (fun a b => fle b.2 a.2) st.coefs).map
    (fun p =>
      (p.1, p.2,
        ssort (fun a b => leContrib b a)
          (((st.contribs.find? (fun q => q.1 = p.1)).map (fun q => q.2)).getD [])))

/-- Projection of `correlate_core` onto the database state: the function
reads exactly the `feature_drive_counts`, `features` and
`feature_frequencies` tables. -/
def correlate_for_type (db : DB) (driveid ftype : Nat) (a : Args) :
    List (Nat × Frac × List (Frac × Nat × String)) :=
  correlate_core db.feature_drive_counts db.features db.feature_frequencies
    driveid ftype a.drive_threshold

/-- Function `make_report` of the source (lines 164–174).  Its first statement is
`c.execute("select count(*) from feature_frequences")`, but no name `c`
exists in `make_report`'s scope — the function never creates a cursor and
no global `c` is defined anywhere in the module — so every invocation
raises `NameError` before any query runs.  (Were a cursor available, the
statement would still fail: it names a table `feature_frequences`, which
the schema does not define — the table is `feature_frequencies`.)  On
success it would have returned the three per-type correlation reports;
that code is unreachable. -/
def make_report (db : DB) (driveid : Nat) (a : Args) :
    Except String
      (List (Nat × Frac × List (Frac × Nat × String)) ×
       List (Nat × Frac × List (Frac × Nat × String)) ×
       List (Nat × Frac × List (Frac × Nat × String))) :=
  .error "NameError: name c is not defined"

/-- Modelled from the spec: `buildStoplist(featureType, fraction,
totalDriveCount)` has no implementation under `src` (the tool's header
comment only advertises a `--makestop` option); per the spec it returns
every feature of the given type whose `drive_count / totalDriveCount`
exceeds `fraction`, read from the frequency table. -/
def buildStoplist (db : DB) (ftype : Nat) (fraction : Frac)
    (totalDriveCount : Nat) : List Nat :=
  (db.feature_frequencies.filter
      (fun q => q.feature_type = ftype &&
        flt fraction ⟨(q.drivecount : Int), totalDriveCount⟩)).map
    (fun q => q.featureid)

/-- Characters SQLite's tokenizer treats as standalone punctuation in the
schema's statements. -/
def isDelim (c : Char) : Bool :=
  c = '(' || c = ')' || c = ',' || c = '='

/-- Tokenize an SQL statement: split on whitespace, with the punctuation
characters of `isDelim` as single-character tokens. -/
def sqlTokens : List Char → List Char → List String
  | [], cur => if cur = [] then [] else [String.mk cur.reverse]
  | c :: rest, cur =>
      if c.isWhitespace then
        if cur = [] then sqlTokens rest []
        else String.mk cur.reverse :: sqlTokens rest []
      else if isDelim c then
        if cur = [] then String.mk [c] :: sqlTokens rest []
        else String.mk cur.reverse :: String.mk [c] :: sqlTokens rest []
      else sqlTokens rest (c :: cur)

/-- The schema objects present in the SQLite file: its tables and
indexes, by name. -/
structure SchemaState where
  tables : List String
  indexes : List String
  deriving Repr, DecidableEq

/-- Add a name to a list unless already present
(the `IF NOT EXISTS` behavior). -/
def addName (l : List String) (n : String) : List String :=
  if l.contains n then l else l ++ [n]

/-- Execution of one schema statement by `c.execute`, modelling exactly
the statement forms the schema string contains: `PRAGMA ...`,
`CREATE TABLE [IF NOT EXISTS] name (...)` and
`CREATE INDEX [IF NOT EXISTS] name ON table (...)`; a whitespace-only
statement prepares to nothing and is a no-op.  Any other statement — in
particular one whose head fits none of these forms, as SQLite's parser
rejects it at prepare time — raises `sqlite3.OperationalError` with a
syntax error, regardless of the database state. -/
def execStmt (st : SchemaState) (stmt : String) : Except String SchemaState :=
  match sqlTokens stmt.data [] with
  | [] => .ok st
  | "PRAGMA" :: _ => .ok st
  | "CREATE" :: "TABLE" :: "IF" :: "NOT" :: "EXISTS" :: name :: "(" :: _ =>
      .ok { st with tables := addName st.tables name }
  | "CREATE" :: "TABLE" :: name :: "(" :: _ =>
      if st.tables.contains name then
        .error ("OperationalError: table " ++ name ++ " already exists")
      else .ok { st with tables := st.tables ++ [name] }
  | "CREATE" :: "INDEX" :: "IF" :: "NOT" :: "EXISTS" :: name :: "ON" :: tbl :: "(" :: _ =>
      if st.tables.contains tbl then
        .ok { st with indexes := addName st.indexes name }
      else .error ("OperationalError: no such table: " ++ tbl)
  | "CREATE" :: "INDEX" :: name :: "ON" :: tbl :: "(" :: _ =>
      if st.indexes.contains name then
        .error ("OperationalError: index " ++ name ++ " already exists")
      else if st.tables.contains tbl then
        .ok { st with indexes := st.indexes ++ [name] }
      else .error ("OperationalError: no such table: " ++ tbl)
  | _ => .error ("OperationalError: syntax error in: " ++ stmt)

/-- Run statements in order, stopping at the first error (the Python loop
`for line in schema.split(";"): c.execute(line)` lets the first
exception propagate).  Returns the state reached together with the error,
if any. -/
def runStmts (st : SchemaState) : List String → SchemaState × Option String
  | [] => (st, none)
  | s :: rest =>
      match execStmt st s with
      | .ok st' => runStmts st' rest
      | .error e => (st, some e)

/-- The `schema` string of the source (lines 34–45), verbatim — including
the misspelling `EXSITS` in the `features_idx` statement and the missing
`IF NOT EXISTS` on the last statement. -/
def schemaSQL : String :=
  "\nPRAGMA cache_size = 200000;\nCREATE TABLE IF NOT EXISTS drives (driveid INTEGER PRIMARY KEY,drivename TEXT NOT NULL UNIQUE,ingested DATE);\nCREATE TABLE IF NOT EXISTS features (featureid INTEGER PRIMARY KEY,feature TEXT NOT NULL UNIQUE);\nCREATE INDEX IF NOT EXSITS features_idx ON features (feature);\nCREATE TABLE IF NOT EXISTS feature_drive_counts (driveid INTEGER NOT NULL,feature_type INTEGER NOT NULL,featureid INTEGER NOT NULL,count INTEGER NOT NULL) ;\nCREATE INDEX IF NOT EXISTS feature_drive_counts_idx1 ON feature_drive_counts(featureid);\nCREATE INDEX IF NOT EXISTS feature_drive_counts_idx2 ON feature_drive_counts(count);\nCREATE TABLE IF NOT EXISTS feature_frequencies (id INTEGER PRIMARY KEY,feature_type INTEGER NOT NULL,featureid INTEGER NOT NULL,drivecount INTEGER,featurecount INTEGER);\nCREATE INDEX feature_frequences_idx ON feature_frequencies (featureid);\n"

/-- Model of Python's `schema.split(";")`: split the character list at
every semicolon, keeping empty segments as `str.split` does. -/
def splitSemi : List Char → List Char → List String
  | [], cur => [String.mk cur.reverse]
  | c :: rest, cur =>
      if c = ';' then String.mk cur.reverse :: splitSemi rest []
      else splitSemi rest (c :: cur)

/-- Function `create_schema` of the source (lines 61–66):
`for line in schema.split(";"): c.execute(line)`. -/
def create_schema (st : SchemaState) : SchemaState × Option String :=
  runStmts st (splitSemi schemaSQL.data [])

/-- A fresh SQLite database file: no tables, no indexes. -/
def freshSchema : SchemaState := ⟨[], []⟩

/-- Projection of a `feature_drive_counts` row on its logical key
`(driveid, feature_type, featureid)`. -/
def rowKey (r : Row) : Nat × Nat × Nat := (r.driveid, r.feature_type, r.featureid)

/-- One logical row per `(drive, type, feature)`: the data-model invariant
of `PerDriveFeatureCount` (spec §3), which `ingest` establishes for
reports whose histograms list each feature once. -/
def OneRowPerKey (rows : List Row) : Prop := (rows.map rowKey).Nodup

instance (rows : List Row) : Decidable (OneRowPerKey rows) :=
  inferInstanceAs (Decidable ((rows.map rowKey).Nodup))

/-- Well-formedness of the `features` table: its `featureid INTEGER
PRIMARY KEY` and `feature TEXT NOT NULL UNIQUE` schema constraints — ids
pairwise distinct, texts pairwise distinct. -/
def WFfeatures (fs : List (Nat × String)) : Prop :=
  (fs.map (fun p => p.1)).Nodup ∧ (fs.map (fun p => p.2)).Nodup

instance (fs : List (Nat × String)) : Decidable (WFfeatures fs) :=
  inferInstanceAs (Decidable (_ ∧ _))

/-- A sequence of interleaved `get_featureid` resolutions, threading the
`features` table through. -/
def runResolves (fs : List (Nat × String)) (ts : List String) :
    List (Nat × String) :=
  ts.foldl (fun acc t => (get_featureid acc t).1) fs

/-- An empty database (all four tables empty). -/
def dbEmpty : DB := ⟨[], [], [], []⟩

/-- A concrete bulk_extractor report used to exercise `ingest`. -/
def rptC1 : BulkReport :=
  { image_filename := "drive1.E01",
    url_searches := [("cache:abc", 3), ("lean", 2)],
    email_histogram := [("a@example.com", 4)],
    winpe := [(10, "h1", "ctx"), (20, "h1", "ctx"), (30, "h2", "ctx")] }

/-- Spec §8 correlation scenario before the rebuild: drive A (id 1) with
EMAIL counts x:5, y:2 and drive B (id 2) with EMAIL counts y:3, z:1. -/
def dbC3 : DB :=
  { drives := [(1, "A"), (2, "B")],
    features := [(1, "x"), (2, "y"), (3, "z")],
    feature_drive_counts :=
      [⟨1, 2, 1, 5⟩, ⟨1, 2, 2, 2⟩, ⟨2, 2, 2, 3⟩, ⟨2, 2, 3, 1⟩],
    feature_frequencies := [] }

/-- Per-drive counts realising EMAIL drive_counts 2, 3, 11 and 4 for the
target drive 1's features 1, 2, 3 and 4 respectively. -/
def fdcC4 : List Row :=
  ([1, 2].map (fun d => (⟨d, 2, 1, 1⟩ : Row))) ++
  ([1, 2, 3].map (fun d => (⟨d, 2, 2, 1⟩ : Row))) ++
  ([1, 2, 3, 4, 5, 6, 7, 8, 9, 10, 11].map (fun d => (⟨d, 2, 3, 1⟩ : Row))) ++
  ([1, 2, 3, 4].map (fun d => (⟨d, 2, 4, 1⟩ : Row)))

/-- Spec §8 early-stop scenario state, after the rebuild: the target
drive 1 holds four EMAIL features whose drive_counts are 2, 3, 11 and 4. -/
def dbC4 : DB :=
  build_feature_frequences
    { drives := (List.range 11).map (fun i => (i + 1, toString (i + 1))),
      features := [(1, "fA"), (2, "fB"), (3, "fC"), (4, "fD")],
      feature_drive_counts := fdcC4,
      feature_frequencies := [] }

/-- State (after rebuild) in which feature 1 is held by the target drive 1
and drive 2 under EMAIL, and by drive 3 under SEARCH only. -/
def dbC2a : DB :=
  build_feature_frequences
    { drives := [(1, "A"), (2, "C"), (3, "B")],
      features := [(1, "f")],
      feature_drive_counts := [⟨1, 2, 1, 1⟩, ⟨2, 2, 1, 1⟩, ⟨3, 1, 1, 1⟩],
      feature_frequencies := [] }

/-- Same state as `dbC2a` with drive 3's SEARCH row removed: both states
have identical EMAIL-type rows in both `feature_drive_counts` and
`feature_frequencies`. -/
def dbC2b : DB :=
  build_feature_frequences
    { drives := [(1, "A"), (2, "C"), (3, "B")],
      features := [(1, "f")],
      feature_drive_counts := [⟨1, 2, 1, 1⟩, ⟨2, 2, 1, 1⟩],
      feature_frequencies := [] }

/-- A state for exercising table-dependency: identical to `dbC2w2` except
in the `drives` table. -/
def dbC2w1 : DB :=
  { drives := [(1, "A"), (2, "B")],
    features := [(1, "f")],
    feature_drive_counts := [⟨1, 2, 1, 1⟩, ⟨2, 2, 1, 1⟩],
    feature_frequencies := [⟨2, 1, 2, 2⟩] }

/-- Same as `dbC2w1` except for the `drives` table. -/
def dbC2w2 : DB :=
  { drives := [(7, "X"), (8, "Y"), (9, "Z")],
    features := [(1, "f")],
    feature_drive_counts := [⟨1, 2, 1, 1⟩, ⟨2, 2, 1, 1⟩],
    feature_frequencies := [⟨2, 1, 2, 2⟩] }

/-- A small `feature_drive_counts` state with one logical row per key:
feature 7 held under EMAIL by drives 1 and 2 and under SEARCH by drive 1. -/
def dbC5w : DB :=
  { drives := [(1, "A"), (2, "B")],
    features := [(7, "f")],
    feature_drive_counts := [⟨1, 2, 7, 5⟩, ⟨2, 2, 7, 3⟩, ⟨1, 1, 7, 1⟩],
    feature_frequencies := [] }

/-- Spec §8 stoplist scenario state: across 10 ingested drives, EMAIL
feature 41 has drive_count 8 and EMAIL feature 42 has drive_count 5. -/
def dbC8 : DB :=
  { drives := (List.range 10).map (fun i => (i + 1, toString (i + 1))),
    features := [(41, "common"), (42, "rarer")],
    feature_drive_counts := [],
    feature_frequencies := [⟨2, 41, 8, 20⟩, ⟨2, 42, 5, 9⟩] }

theorem fle_iff_val (a b : Frac) (ha : 0 < a.den) (hb : 0 < b.den) :
    fle a b = true ↔ a.val ≤ b.val := by
  have ha' : (0 : Rat) < (a.den : Rat) := by exact_mod_cast ha
  have hb' : (0 : Rat) < (b.den : Rat) := by exact_mod_cast hb
  unfold fle Frac.val
  rw [decide_eq_true_eq, div_le_div_iff₀ ha' hb']
  constructor
  · intro h; exact_mod_cast h
  · intro h; exact_mod_cast h

theorem flt_iff_val (a b : Frac) (ha : 0 < a.den) (hb : 0 < b.den) :
    flt a b = true ↔ a.val < b.val := by
  have ha' : (0 : Rat) < (a.den : Rat) := by exact_mod_cast ha
  have hb' : (0 : Rat) < (b.den : Rat) := by exact_mod_cast hb
  unfold flt Frac.val
  rw [decide_eq_true_eq, div_lt_div_iff₀ ha' hb']
  constructor
  · intro h; exact_mod_cast h
  · intro h; exact_mod_cast h

theorem fadd_val (a b : Frac) (ha : 0 < a.den) (hb : 0 < b.den) :
    (fadd a b).val = a.val + b.val := by
  have ha' : ((a.den : Rat)) ≠ 0 := by
    have : (0 : Rat) < (a.den : Rat) := by exact_mod_cast ha
    exact ne_of_gt this
  have hb' : ((b.den : Rat)) ≠ 0 := by
    have : (0 : Rat) < (b.den : Rat) := by exact_mod_cast hb
    exact ne_of_gt this
  unfold fadd Frac.val
  push_cast
  field_simp

theorem mem_le_foldr_max (l : List Nat) (a : Nat) (h : a ∈ l) :
    a ≤ l.foldr max 0 := by
  induction l with
  | nil => cases h
  | cons b l ih =>
    rcases List.mem_cons.mp h with rfl | h'
    · exact le_max_left _ _
    · exact le_trans (ih h') (le_max_right _ _)

theorem fst_lt_nextRowid (fs : List (Nat × String)) (p : Nat × String)
    (h : p ∈ fs) : p.1 < nextRowid fs :=
  Nat.lt_succ_of_le (mem_le_foldr_max _ _ (List.mem_map_of_mem (fun q => q.1) h))

theorem rowLookup_eq_none (fs : List (Nat × String)) (t : String) :
    rowLookup fs t = none ↔ ∀ p ∈ fs, p.2 ≠ t := by
  simp [rowLookup, List.find?_eq_none]

theorem rowLookup_eq_some (fs : List (Nat × String)) (t : String) (i : Nat)
    (h : rowLookup fs t = some i) : (i, t) ∈ fs := by
  simp only [rowLookup, Option.map_eq_some'] at h
  obtain ⟨p, hp, rfl⟩ := h
  have h1 := List.mem_of_find?_eq_some hp
  have h2 := List.find?_some hp
  simp only [decide_eq_true_eq] at h2
  have : p = (p.1, t) := by
    cases p; simp_all
  rwa [this] at h1

theorem lookup_get_featureid_self (fs : List (Nat × String)) (t : String) :
    rowLookup (get_featureid fs t).1 t = some (get_featureid fs t).2 := by
  unfold get_featureid
  cases hl : rowLookup fs t with
  | some i => simpa using hl
  | none =>
    have hfind : fs.find? (fun p => decide (p.2 = t)) = none := by
      simpa [rowLookup] using hl
    simp [rowLookup, List.find?_append, hfind]

theorem lookup_get_featureid_stable (fs : List (Nat × String)) (t t' : String)
    (i : Nat) (h : rowLookup fs t' = some i) :
    rowLookup (get_featureid fs t).1 t' = some i := by
  unfold get_featureid
  cases hl : rowLookup fs t with
  | some j => simpa using h
  | none =>
    simp only [rowLookup, Option.map_eq_some'] at h
    obtain ⟨p, hp, hpi⟩ := h
    simp [rowLookup, List.find?_append, hp, hpi]

theorem lookup_runResolves_stable (ts : List String)
    (fs : List (Nat × String)) (t' : String) (i : Nat)
    (h : rowLookup fs t' = some i) :
    rowLookup (runResolves fs ts) t' = some i := by
  induction ts generalizing fs with
  | nil => exact h
  | cons t ts ih =>
    exact ih _ (lookup_get_featureid_stable fs t t' i h)

theorem wf_get_featureid (fs : List (Nat × String)) (t : String)
    (h : WFfeatures fs) : WFfeatures (get_featureid fs t).1 := by
  unfold get_featureid
  cases hl : rowLookup fs t with
  | some i => exact h
  | none =>
    have ht : ∀ p ∈ fs, p.2 ≠ t := (rowLookup_eq_none fs t).mp hl
    constructor
    · simp only [List.map_append, List.nodup_append]
      refine ⟨h.1, by simp, ?_⟩
      intro a ha
      simp only [List.map_cons, List.map_nil, List.mem_cons,
        List.not_mem_nil, or_false]
      intro heq
      obtain ⟨p, hp, rfl⟩ := List.mem_map.mp ha
      exact absurd heq (Nat.ne_of_lt (fst_lt_nextRowid fs p hp))
    · simp only [List.map_append, List.nodup_append]
      refine ⟨h.2, by simp, ?_⟩
      intro a ha
      simp only [List.map_cons, List.map_nil, List.mem_cons,
        List.not_mem_nil, or_false]
      intro heq
      obtain ⟨p, hp, rfl⟩ := List.mem_map.mp ha
      exact absurd heq (ht p hp)

theorem wf_runResolves (ts : List String) (fs : List (Nat × String))
    (h : WFfeatures fs) : WFfeatures (runResolves fs ts) := by
  induction ts generalizing fs with
  | nil => exact h
  | cons t ts ih => exact ih _ (wf_get_featureid fs t h)

theorem rowLookup_inj (fs : List (Nat × String)) (h : WFfeatures fs)
    (t1 t2 : String) (i : Nat) (h1 : rowLookup fs t1 = some i)
    (h2 : rowLookup fs t2 = some i) : t1 = t2 := by
  have m1 := rowLookup_eq_some fs t1 i h1
  have m2 := rowLookup_eq_some fs t2 i h2
  have := List.inj_on_of_nodup_map h.1 m1 m2 rfl
  exact congrArg Prod.snd this

theorem groupRows_driveid_nodup (rows : List Row) (h : OneRowPerKey rows)
    (k : Nat × Nat) :
    ((groupRows rows k).map (fun r => r.driveid)).Nodup := by
  have hsub : List.Sublist ((groupRows rows k).map rowKey) (rows.map rowKey) :=
    (List.filter_sublist rows).map rowKey
  have hnd : ((groupRows rows k).map rowKey).Nodup := h.sublist hsub
  have hmm : ((groupRows rows k).map (fun r => r.driveid)) =
      ((groupRows rows k).map rowKey).map (fun p => p.1) := by
    rw [List.map_map]; rfl
  rw [hmm]
  refine hnd.map_on ?_
  intro x hx y hy hxy
  obtain ⟨r, hr, rfl⟩ := List.mem_map.mp hx
  obtain ⟨r', hr', rfl⟩ := List.mem_map.mp hy
  have hrp := (List.mem_filter.mp hr).2
  have hrp' := (List.mem_filter.mp hr').2
  simp only [groupRows, Bool.and_eq_true, decide_eq_true_eq] at hrp hrp'
  show (r.driveid, r.feature_type, r.featureid) =
    (r'.driveid, r'.feature_type, r'.featureid)
  have hd : r.driveid = r'.driveid := hxy
  rw [hd, hrp.1, hrp.2, hrp'.1, hrp'.2]

/-- C5: after `build_feature_frequences` runs on a state whose
`feature_drive_counts` table has one logical row per `(drive, type,
feature)` key, every `(feature, type)` pair present in
`feature_drive_counts` has a `feature_frequencies` row whose `drivecount`
is the number of distinct drives recording a count for that pair and
whose `featurecount` is the sum of those counts, and every
`feature_frequencies` row's `(feature, type)` pair is present in
`feature_drive_counts` (the table was cleared and rebuilt from scratch). -/
theorem build_feature_frequences_correct (db : DB)
    (h : OneRowPerKey db.feature_drive_counts) :
    (∀ fid t,
        (∃ r ∈ db.feature_drive_counts, r.featureid = fid ∧ r.feature_type = t) →
        ∃ q ∈ (build_feature_frequences db).feature_frequencies,
          q.featureid = fid ∧ q.feature_type = t ∧
          q.drivecount =
            ((groupRows db.feature_drive_counts (fid, t)).map
                (fun r => r.driveid)).dedup.length ∧
          q.featurecount =
            ((groupRows db.feature_drive_counts (fid, t)).map
                (fun r => r.count)).sum) ∧
    (∀ q ∈ (build_feature_frequences db).feature_frequencies,
        ∃ r ∈ db.feature_drive_counts,
          r.featureid = q.featureid ∧ r.feature_type = q.feature_type) := by
  constructor
  · intro fid t hex
    obtain ⟨r, hr, hfid, ht⟩ := hex
    have hk : (fid, t) ∈ groupKeys db.feature_drive_counts := by
      simp only [groupKeys, List.mem_dedup, List.mem_map]
      exact ⟨r, hr, by rw [hfid, ht]⟩
    refine ⟨_, List.mem_map_of_mem _ hk, rfl, rfl, ?_, rfl⟩
    have hnd := groupRows_driveid_nodup db.feature_drive_counts h (fid, t)
    rw [hnd.dedup, List.length_map]
  · intro q hq
    simp only [build_feature_frequences, List.mem_map] at hq
    obtain ⟨k, hk, rfl⟩ := hq
    simp only [groupKeys, List.mem_dedup, List.mem_map] at hk
    obtain ⟨r, hr, hkey⟩ := hk
    exact ⟨r, hr, congrArg Prod.fst hkey, congrArg Prod.snd hkey⟩

/-- Witness for `build_feature_frequences_correct` at the concrete state
`dbC5w`. -/
theorem build_feature_frequences_correct_witness :
    OneRowPerKey dbC5w.feature_drive_counts ∧
    ((∀ fid t,
        (∃ r ∈ dbC5w.feature_drive_counts,
            r.featureid = fid ∧ r.feature_type = t) →
        ∃ q ∈ (build_feature_frequences dbC5w).feature_frequencies,
          q.featureid = fid ∧ q.feature_type = t ∧
          q.drivecount =
            ((groupRows dbC5w.feature_drive_counts (fid, t)).map
                (fun r => r.driveid)).dedup.length ∧
          q.featurecount =
            ((groupRows dbC5w.feature_drive_counts (fid, t)).map
                (fun r => r.count)).sum) ∧
    (∀ q ∈ (build_feature_frequences dbC5w).feature_frequencies,
        ∃ r ∈ dbC5w.feature_drive_counts,
          r.featureid = q.featureid ∧ r.feature_type = q.feature_type)) :=
  ⟨by decide, build_feature_frequences_correct dbC5w (by decide)⟩

theorem get_featureid_snd_of_lookup (fs : List (Nat × String)) (t : String)
    (i : Nat) (h : rowLookup fs t = some i) : (get_featureid fs t).2 = i := by
  unfold get_featureid
  rw [h]

/-- C6: feature resolution through `get_featureid` is a bijection,
regardless of interleaving: starting from any well-formed `features`
table, resolving `t1`, then any sequence of other resolutions, then `t1`
again returns the id of the first resolution, while resolving a distinct
text `t2` at that later point returns a different id. -/
theorem get_featureid_bijection (fs : List (Nat × String)) (h : WFfeatures fs)
    (ts : List String) (t1 t2 : String) (hne : t1 ≠ t2) :
    (get_featureid (runResolves (get_featureid fs t1).1 ts) t1).2 =
      (get_featureid fs t1).2 ∧
    (get_featureid (runResolves (get_featureid fs t1).1 ts) t2).2 ≠
      (get_featureid fs t1).2 := by
  have h1 : rowLookup (get_featureid fs t1).1 t1 = some (get_featureid fs t1).2 :=
    lookup_get_featureid_self fs t1
  have h2 : rowLookup (runResolves (get_featureid fs t1).1 ts) t1 =
      some (get_featureid fs t1).2 :=
    lookup_runResolves_stable ts _ t1 _ h1
  constructor
  · exact get_featureid_snd_of_lookup _ t1 _ h2
  · intro heq
    have hwf2 : WFfeatures (runResolves (get_featureid fs t1).1 ts) :=
      wf_runResolves ts _ (wf_get_featureid fs t1 h)
    have h3 : rowLookup (get_featureid (runResolves (get_featureid fs t1).1 ts) t2).1 t2 =
        some (get_featureid (runResolves (get_featureid fs t1).1 ts) t2).2 :=
      lookup_get_featureid_self _ t2
    have h4 : rowLookup (get_featureid (runResolves (get_featureid fs t1).1 ts) t2).1 t1 =
        some (get_featureid fs t1).2 :=
      lookup_get_featureid_stable _ t2 t1 _ h2
    have hwf3 : WFfeatures (get_featureid (runResolves (get_featureid fs t1).1 ts) t2).1 :=
      wf_get_featureid _ t2 hwf2
    rw [heq] at h3
    exact hne (rowLookup_inj _ hwf3 t1 t2 _ h4 h3)

/-- Witness for `get_featureid_bijection`: from the empty `features`
table, resolve "a", then "c" and "a" again interleaved, then compare a
late re-resolution of "a" and a late resolution of "b". -/
theorem get_featureid_bijection_witness :
    WFfeatures [] ∧ "a" ≠ "b" ∧
    ((get_featureid (runResolves (get_featureid [] "a").1 ["c", "a"]) "a").2 =
        (get_featureid [] "a").2 ∧
      (get_featureid (runResolves (get_featureid [] "a").1 ["c", "a"]) "b").2 ≠
        (get_featureid [] "a").2) :=
  ⟨by decide, by decide, get_featureid_bijection [] (by decide) ["c", "a"] "a" "b" (by decide)⟩

/-- C1 (code bug): re-ingestion is not idempotent — it does not even
succeed.  `get_driveid` inserts the drive name unconditionally against
the `UNIQUE` drivename constraint, so ingesting the same report a second
time raises `sqlite3.IntegrityError` before touching any count (and the
`DELETE` keyed on the always-fresh drive id can never clear a previous
drive's rows).  Evaluated here on the concrete report `rptC1`: the first
ingest succeeds, the second fails. -/
theorem ingest_reingest_unique_violation :
    (ingest dbEmpty rptC1).isOk = true ∧
    (ingest dbEmpty rptC1).bind (fun db1 => ingest db1 rptC1) =
      .error "IntegrityError: UNIQUE constraint failed: drives.drivename" :=
  ⟨rfl, rfl⟩

/-- C2 (counterexample): `correlate_for_type` does NOT keep feature types
independent.  `dbC2a` and `dbC2b` agree on `drives`, `features` and on
every EMAIL-type row of both `feature_drive_counts` and
`feature_frequencies` — they differ only in drive 3's SEARCH-type row —
yet correlating drive 1 for EMAIL gives different output (in `dbC2a`,
drive 3 receives a score although it holds the feature under SEARCH
only). -/
theorem correlate_type_bleed_counterexample :
    dbC2a.drives = dbC2b.drives ∧
    dbC2a.features = dbC2b.features ∧
    dbC2a.feature_drive_counts.filter (fun r => r.feature_type = EMAIL_TYPE) =
      dbC2b.feature_drive_counts.filter (fun r => r.feature_type = EMAIL_TYPE) ∧
    dbC2a.feature_frequencies.filter (fun q => q.feature_type = EMAIL_TYPE) =
      dbC2b.feature_frequencies.filter (fun q => q.feature_type = EMAIL_TYPE) ∧
    correlate_for_type dbC2a 1 EMAIL_TYPE argsDefault ≠
      correlate_for_type dbC2b 1 EMAIL_TYPE argsDefault := by
  decide

/-- C2 (amended): the result of `correlate_for_type` depends only on the
`feature_drive_counts`, `feature_frequencies` and `features` tables — of
ALL feature types, not only the queried one: the frequency join matches
on feature id alone and the contribution query ignores the type. -/
theorem correlate_depends_only_on_tables (db1 db2 : DB) (d t : Nat) (a : Args)
    (hc : db1.feature_drive_counts = db2.feature_drive_counts)
    (hq : db1.feature_frequencies = db2.feature_frequencies)
    (hf : db1.features = db2.features) :
    correlate_for_type db1 d t a = correlate_for_type db2 d t a := by
  unfold correlate_for_type
  rw [hc, hq, hf]

/-- Witness for `correlate_depends_only_on_tables`: two states differing
only in the `drives` table. -/
theorem correlate_depends_only_on_tables_witness :
    dbC2w1.feature_drive_counts = dbC2w2.feature_drive_counts ∧
    dbC2w1.feature_frequencies = dbC2w2.feature_frequencies ∧
    dbC2w1.features = dbC2w2.features ∧
    correlate_for_type dbC2w1 1 EMAIL_TYPE argsDefault =
      correlate_for_type dbC2w2 1 EMAIL_TYPE argsDefault :=
  ⟨rfl, rfl, rfl,
    correlate_depends_only_on_tables dbC2w1 dbC2w2 1 EMAIL_TYPE argsDefault
      rfl rfl rfl⟩

/-- C3: the spec's correlation-scoring scenario.  After rebuilding the
frequencies of `dbC3` (drive A=1 with EMAIL counts x:5, y:2; drive B=2
with EMAIL counts y:3, z:1), correlating drive A for EMAIL yields exactly
drive B with total score 1/2: features x and z have drive_count 1 and are
discarded, and the shared feature y (drive_count 2) contributes weight
1/2. -/
theorem correlate_email_scenario_score :
    correlate_for_type (build_feature_frequences dbC3) 1 EMAIL_TYPE argsDefault =
      [(2, ⟨1, 2⟩, [(⟨1, 2⟩, 2, "y")])] ∧
    (⟨1, 2⟩ : Frac).val = 1/2 := by
  refine ⟨by decide, ?_⟩
  norm_num [Frac.val]

/-- C4 (counterexample): with the target drive's features having
drive_counts 2, 3, 11 and 4 and the default cutoff 10, the drive_count-4
feature IS processed — its weight-1/4 contribution appears in the output
(the list is walked in ascending sorted order 2, 3, 4, 11), and the
drive_count-11 feature's own 1/11 contribution is also added before the
walk halts.  This refutes the claimed order [2, 3, 11, 4] and the claim
that the drive_count-4 feature is never processed. -/
theorem correlate_early_stop_counterexample :
    dbC4.feature_frequencies.map (fun q => q.drivecount) = [2, 3, 11, 4] ∧
    (correlate_for_type dbC4 1 EMAIL_TYPE argsDefault).head? =
      some (2, ⟨310, 264⟩,
        [(⟨1, 2⟩, 1, "fA"), (⟨1, 3⟩, 2, "fB"), (⟨1, 4⟩, 4, "fD"),
         (⟨1, 11⟩, 3, "fC")]) ∧
    (⟨310, 264⟩ : Frac).val = 155/132 := by
  refine ⟨by decide, by decide, ?_⟩
  norm_num [Frac.val]

/-- C4 (amended): the candidate walk of `correlate_for_type` processes
features in ascending sorted order and stops AFTER processing the first
feature whose drive_count exceeds the cutoff: its contributions are
added, and every list item after it is never processed. -/
theorem walkCands_break_after_first_exceeding (fdc : List Row)
    (target thr : Nat)
    (l1 l2 : List (Nat × Nat × String)) (x : Nat × Nat × String)
    (s : CorrState)
    (h1 : ∀ c ∈ l1, c.1 ≤ thr) (hx : thr < x.1) :
    walkCands fdc target thr (l1 ++ x :: l2) s =
      processCand fdc target (walkCands fdc target thr l1 s) x := by
  induction l1 generalizing s with
  | nil =>
    simp [walkCands, hx]
  | cons a l1 ih =>
    have ha : ¬ thr < a.1 := not_lt.mpr (h1 a (List.mem_cons_self a l1))
    simp only [List.cons_append, walkCands, if_neg ha]
    exact ih _ (fun c hc => h1 c (List.mem_cons_of_mem a hc))

/-- Witness for `walkCands_break_after_first_exceeding` at a concrete
candidate list with drive_counts [2, 11, 4] and cutoff 10. -/
theorem walkCands_break_after_first_exceeding_witness :
    (∀ c ∈ [((2 : Nat), (1 : Nat), "a")], c.1 ≤ 10) ∧ 10 < 11 ∧
    walkCands fdcC4 1 10
        ([((2 : Nat), (1 : Nat), "a")] ++ (11, 2, "b") :: [(4, 3, "c")]) ⟨[], []⟩ =
      processCand fdcC4 1
        (walkCands fdcC4 1 10 [((2 : Nat), (1 : Nat), "a")] ⟨[], []⟩)
        (11, 2, "b") :=
  ⟨by decide, by decide,
    walkCands_break_after_first_exceeding fdcC4 1 10 _ _ _ _
      (by decide) (by decide)⟩

/-- C7 (code bug): `make_report` raises on every invocation — its first
statement references the undefined name `c` (no cursor is ever created in
its scope and no global `c` exists), so the emptiness check, the
conditional rebuild and the three per-type correlations are never
reached.  (The queried table name `feature_frequences` is also
misspelled.) -/
theorem make_report_always_raises (db : DB) (driveid : Nat) (a : Args) :
    make_report db driveid a = .error "NameError: name c is not defined" :=
  rfl

/-- C8: stoplist membership.  `buildStoplist` returns exactly the
features of the given type whose drive_count / totalDriveCount exceeds
the fraction; in the spec's 10-drive scenario with fraction 7/10, the
drive_count-8 feature (id 41) is returned and the drive_count-5 feature
(id 42) is not. -/
theorem buildStoplist_membership :
    (∀ (db : DB) (t : Nat) (frac : Frac) (total fid : Nat),
        0 < frac.den → 0 < total →
        (fid ∈ buildStoplist db t frac total ↔
          ∃ q ∈ db.feature_frequencies, q.featureid = fid ∧
            q.feature_type = t ∧
            frac.val < (q.drivecount : Rat) / (total : Rat))) ∧
    buildStoplist dbC8 EMAIL_TYPE ⟨7, 10⟩ 10 = [41] := by
  constructor
  · intro db t frac total fid hfrac htotal
    have hval : ∀ q : FreqRow,
        (flt frac ⟨(q.drivecount : Int), total⟩ = true ↔
          frac.val < (q.drivecount : Rat) / (total : Rat)) := by
      intro q
      rw [flt_iff_val frac ⟨(q.drivecount : Int), total⟩ hfrac htotal]
      unfold Frac.val
      norm_num
    simp only [buildStoplist, List.mem_map, List.mem_filter,
      Bool.and_eq_true, decide_eq_true_eq]
    constructor
    · rintro ⟨q, ⟨hq, ht, hf⟩, rfl⟩
      exact ⟨q, hq, rfl, ht, (hval q).mp hf⟩
    · rintro ⟨q, hq, rfl, ht, hf⟩
      exact ⟨q, ⟨hq, ht, (hval q).mpr hf⟩, rfl⟩
  · decide

/-- Witness for `buildStoplist_membership` at the concrete state `dbC8`,
fraction 7/10 and feature 41. -/
theorem buildStoplist_membership_witness :
    0 < (⟨7, 10⟩ : Frac).den ∧ (0 : Nat) < 10 ∧
    ((41 ∈ buildStoplist dbC8 EMAIL_TYPE ⟨7, 10⟩ 10) ↔
      ∃ q ∈ dbC8.feature_frequencies, q.featureid = 41 ∧
        q.feature_type = EMAIL_TYPE ∧
        (⟨7, 10⟩ : Frac).val < (q.drivecount : Rat) / ((10 : Nat) : Rat)) :=
  ⟨by decide, by decide,
    buildStoplist_membership.1 dbC8 EMAIL_TYPE ⟨7, 10⟩ 10 41
      (by decide) (by decide)⟩

/-- C9: the `correlation_cutoff` tunable is read by no analysis code —
two runs of the correlation (and of the report path) that differ only in
its value produce identical results, for every database state. -/
theorem correlation_cutoff_unused (db : DB) (d t thr : Nat) (c1 c2 : Frac) :
    correlate_for_type db d t ⟨thr, c1⟩ = correlate_for_type db d t ⟨thr, c2⟩ ∧
    make_report db d ⟨thr, c1⟩ = make_report db d ⟨thr, c2⟩ :=
  ⟨rfl, rfl⟩

/-- C10: every invocation of `create_schema` fails — the third `CREATE`
statement, `CREATE INDEX IF NOT EXSITS features_idx ON features
(feature)`, is rejected by the SQL parser whatever the database state —
and on a fresh database execution stops having created only the `drives`
and `features` tables, so the `feature_drive_counts` and
`feature_frequencies` tables are never created. -/
theorem create_schema_always_fails :
    (∀ st : SchemaState, ((create_schema st).2).isSome = true) ∧
    (create_schema freshSchema).1.tables = ["drives", "features"] := by
  constructor
  · intro st
    rfl
  · rfl
